import Mathlib

/-!
# Verification of the Oppia reader controllers

Shallow embedding of `core/controllers/reader.py` (the reader-facing
request handlers of the Oppia education platform) together with the
editor-onboarding (prerequisites) flow described by its test suite.

External collaborators (exploration store, widget registry, rights
manager, parameter services, HTML export) are modelled as an explicit
environment of opaque-to-us function fields, universally quantified in
every theorem.  Fallible dictionary accesses in the Python code become
`Except`; analytics calls become an event list in the handler result.
-/

namespace Oppia

/-- Reader parameters: a Python dict from string keys to (opaque) string
values, with insertion-order association-list semantics. -/
abbrev Params := List (String × String)

/-- Python `d[k] = v`: overwrite the value at an existing key in place, else
append the new binding (Python dict update semantics). -/
def paramsInsert (p : Params) (k v : String) : Params :=
  if p.any (fun kv => kv.1 == k) then
    p.map (fun kv => if kv.1 == k then (k, v) else kv)
  else
    p ++ [(k, v)]

/-- A content block of a state (`exp_domain.Content`): a type tag and a
payload value. -/
structure Content where
  ctype : String
  value : String
deriving DecidableEq

/-- The interactive widget instance attached to a state: widget id in the
registry, customization arguments (opaque blob), and the sticky flag. -/
structure WidgetInstance where
  widget_id : String
  customization_args : String
  sticky : Bool
deriving DecidableEq

/-- A state of an exploration: content blocks plus one widget instance. -/
structure State where
  content : List Content
  widget : WidgetInstance
deriving DecidableEq

/-- An exploration: id, title, default skin, named states and the
designated initial state name. -/
structure Exploration where
  id : String
  title : String
  default_skin : String
  init_state_name : String
  states : List (String × State)
deriving DecidableEq

/-- Lookup `exploration.states[name]`: dictionary access of a state by name. -/
def lookupState (e : Exploration) (name : String) : Option State :=
  (e.states.find? (fun p => p.1 == name)).map (fun p => p.2)

/-- The result of classifying a reader's answer (`exp_services.classify`):
a destination state name (possibly the end sentinel), the feedback string
(`get_feedback_string`, empty when the rule carries none), and the `str()`
form used by the stats log. -/
structure Rule where
  dest : String
  feedback_string : String
  rule_repr : String
deriving DecidableEq

/-- Modelled from the spec: `feconf.END_DEST`, the sentinel destination
name marking the end of an exploration (the constant lives in `feconf.py`,
outside this excerpt; its concrete value is immaterial, only its
distinguishability from real state names matters). -/
def END_DEST : String := "END"

/-- An analytics event recorded through `stats_services.EventHandler` or a
demo-exploration maintenance call in `exp_services`. -/
inductive Event where
  | stateHit (exploration_id : String) (state_name : String) (first_time : Bool)
  | answerSubmitted (exploration_id : String) (state_name : String)
      (handler : String) (rule_str : String) (recorded_answer : String)
  | stateFeedbackFromReader (exploration_id : String) (state_name : String)
      (feedback : String) (history : List String)
  | deleteDemo (id : String)
  | loadDemo (id : String)
deriving DecidableEq

/-- The environment of external services the controllers delegate to:
exploration store, rights manager, widget registry (keyed by widget id),
parameter services, HTML export, and the answer classifier. -/
structure Env where
  get_exploration_by_id : String → Option Exploration
  can_view : Option String → String → Bool
  is_exploration_public : String → Bool
  get_skin_html : String → String
  get_init_params : String → Params
  update_with_state_params : String → String → Params → Params
  export_content_to_html : String → List Content → Params → String
  get_raw_code : String → String → Params → String
  get_reader_response_html : String → String → Params → String → String × String
  get_stats_log_html : String → String → Params → String → String
  classify : String → String → String → String → Params → Rule

/-- Errors a handler run can end in: the framework's 404 page, or an
uncaught Python exception surfaced as a generic server error. -/
inductive HandlerError where
  | notFound
  | internal (msg : String)
deriving DecidableEq

/-- Access `exploration.states[name]` with Python `KeyError` semantics. -/
def getStateOrKeyError (e : Exploration) (name : String) : Except HandlerError State :=
  match lookupState e name with
  | none => Except.error (HandlerError.internal ("KeyError: " ++ name))
  | some s => Except.ok s

/-- Dereference the (possibly absent) destination `State`; `None` in the
Python code, whose attribute access would raise. -/
def derefState (s : Option State) : Except HandlerError State :=
  match s with
  | none => Except.error (HandlerError.internal "AttributeError: NoneType has no attribute widget")
  | some st => Except.ok st

/-- Equality of `Except` runs is decidable when both components are. -/
instance {ε α : Type} [DecidableEq ε] [DecidableEq α] :
    DecidableEq (Except ε α) := fun x y =>
  match x, y with
  | Except.error a, Except.error b =>
    if h : a = b then isTrue (by rw [h])
    else isFalse (fun hc => h (Except.error.inj hc))
  | Except.error _, Except.ok _ => isFalse (fun hc => Except.noConfusion hc)
  | Except.ok _, Except.error _ => isFalse (fun hc => Except.noConfusion hc)
  | Except.ok a, Except.ok b =>
    if h : a = b then isTrue (by rw [h])
    else isFalse (fun hc => h (Except.ok.inj hc))

end Oppia

namespace Oppia.ExplorationPage

/-- Values rendered into the template by `ExplorationPage.get`. -/
structure PageValues where
  content : String
  iframed : Bool
  is_public : Bool
deriving DecidableEq

/-- Model of `ExplorationPage.get`: resolve the exploration (any failure becomes
`PageNotFoundException`), check view rights (failure is again
`PageNotFoundException`), then render the reader page. -/
def get (env : Env) (user_id : Option String) (iframed : Bool)
    (exploration_id : String) : Except HandlerError PageValues :=
  match env.get_exploration_by_id exploration_id with
  | none => Except.error HandlerError.notFound
  | some exploration =>
    if env.can_view user_id exploration_id then
      Except.ok
        { content := env.get_skin_html exploration.default_skin
          iframed := iframed
          is_public := env.is_exploration_public exploration_id }
    else
      Except.error HandlerError.notFound

end Oppia.ExplorationPage

namespace Oppia.ExplorationHandler

open Oppia

/-- The JSON payload of `ExplorationHandler.get` (`/learnhandler/init`). -/
structure InitValues where
  block_number : Int
  interactive_html : String
  oppia_html : String
  params : Params
  state_history : List String
  state_name : String
  title : String
deriving DecidableEq

/-- Model of `ExplorationHandler.get`: resolve the exploration (failure becomes
`PageNotFoundException`; note there is no view-rights check here), compute
initial reader parameters, render the initial state's content and widget,
return the initial JSON and record the initial state-hit event. -/
def get (env : Env) (exploration_id : String) :
    Except HandlerError (InitValues × List Event) :=
  match env.get_exploration_by_id exploration_id with
  | none => Except.error HandlerError.notFound
  | some exploration => do
    let init_params := env.get_init_params exploration_id
    let reader_params := env.update_with_state_params
      exploration_id exploration.init_state_name init_params
    let init_state ← getStateOrKeyError exploration exploration.init_state_name
    let init_html := env.export_content_to_html
      exploration_id init_state.content reader_params
    let interactive_html := env.get_raw_code
      init_state.widget.widget_id init_state.widget.customization_args reader_params
    Except.ok
      ({ block_number := 0
         interactive_html := interactive_html
         oppia_html := init_html
         params := reader_params
         state_history := [exploration.init_state_name]
         state_name := exploration.init_state_name
         title := exploration.title },
       [Event.stateHit exploration_id exploration.init_state_name true])

end Oppia.ExplorationHandler

namespace Oppia.RandomExplorationPage

open Oppia

/-- The outcome of `RandomExplorationPage.get`: demo-maintenance events
performed, and the redirect target URL. -/
structure RandomResult where
  events : List Event
  dest_url : String
deriving DecidableEq

/-- Modelled from the spec: `utils.get_random_choice` (in `utils.py`,
outside this excerpt) returns a uniformly random element of a non-empty
list; the random draw is made explicit as a natural number `r`, reduced
modulo the list length, so that a uniformly distributed `r` yields a
uniformly distributed element. -/
def get_random_choice (l : List Exploration) (r : Nat) (dflt : Exploration) :
    Exploration :=
  l.getD (r % l.length) dflt

/-- A placeholder `Exploration` used only as the (never reached) default of
`List.getD` inside `get_random_choice`. -/
def dummyExploration : Exploration :=
  { id := "", title := "", default_skin := "", init_state_name := "", states := [] }

/-- Model of `RandomExplorationPage.get`: with at most one public exploration,
delete and reload demo exploration "1" and redirect to it; otherwise
redirect to a random public exploration drawn from the list without its
first element. -/
def get (explorations : List Exploration) (r : Nat) (iframed : Bool) :
    RandomResult :=
  let suffix := if iframed then "?iframed=true" else ""
  if explorations.length ≤ 1 then
    { events := [Event.deleteDemo "1", Event.loadDemo "1"]
      dest_url := "/learn/1" ++ suffix }
  else
    let selected := get_random_choice (explorations.drop 1) r dummyExploration
    { events := []
      dest_url := "/learn/" ++ selected.id ++ suffix }

end Oppia.RandomExplorationPage

namespace Oppia.FeedbackHandler

open Oppia

/-- The JSON payload of a `POST /learnhandler/transition` request. -/
structure Payload where
  answer : String
  handler : String
  block_number : Int
  params : Params
  state_history : List String
deriving DecidableEq

/-- The JSON values returned by `FeedbackHandler.post`. -/
structure PostValues where
  reader_response_html : String
  reader_response_iframe : String
  interactive_html : String
  exploration_id : String
  state_name : String
  oppia_html : String
  block_number : Int
  params : Params
  finished : Bool
  state_history : List String
deriving DecidableEq

/-- A `FeedbackHandler.post` run: returned JSON plus the analytics events
recorded, in order. -/
structure PostResult where
  values : PostValues
  events : List Event
deriving DecidableEq

/-- Python `str.split('\n')`, written at the character level so that it
evaluates inside the kernel (`String.splitOn` does not); extensionally the
same split on the newline character. -/
def splitOnNewline (s : String) : List String :=
  (s.toList.splitOnP (fun ch => ch == '\x0a')).map (fun l => String.mk l)

/-- Model of `FeedbackHandler._get_feedback`: empty feedback renders to the empty
string; otherwise split on newlines, join with a line break and export as
a single text content block. -/
def get_feedback (env : Env) (exploration_id : String) (feedback : String)
    (params : Params) : String :=
  if feedback = "" then ""
  else
    env.export_content_to_html exploration_id
      [{ ctype := "text"
         value := String.intercalate "<br>" (splitOnNewline feedback) }]
      params

/-- The destination state of the classified rule: `None` for the end
sentinel, else a dictionary lookup that can raise `KeyError`. -/
def resolveNewState (exploration : Exploration) (new_state_name : String) :
    Except HandlerError (Option State) :=
  if new_state_name == END_DEST then Except.ok none
  else do
    let s ← getStateOrKeyError exploration new_state_name
    Except.ok (some s)

/-- The `sticky` conjunction of `FeedbackHandler.post`: Python `and`
short-circuits, so the destination widget is only read after the
end-sentinel test has failed. -/
def computeSticky (old_state : State) (new_state_name : String)
    (new_state : Option State) : Except HandlerError Bool :=
  if new_state_name == END_DEST then Except.ok false
  else do
    let ns ← derefState new_state
    Except.ok (ns.widget.sticky &&
      (ns.widget.widget_id == old_state.widget.widget_id))

/-- Model of `FeedbackHandler._append_content`: on a finished session return the
feedback HTML alone with empty parameters and no interactive widget;
otherwise compute the destination parameters, append the destination
state's content (with a `<br>` separator when both pieces are non-empty)
exactly when the state changed, and re-render the widget unless sticky. -/
def append_content (env : Env) (exploration_id : String) (sticky finished : Bool)
    (old_params : Params) (new_state : Option State) (new_state_name : String)
    (state_has_changed : Bool) (html_output : String) :
    Except HandlerError (Params × String × String) :=
  if finished then
    Except.ok ([], html_output, "")
  else do
    let new_params := env.update_with_state_params
      exploration_id new_state_name old_params
    let html_output ←
      if state_has_changed then do
        let ns ← derefState new_state
        let state_html := env.export_content_to_html
          exploration_id ns.content new_params
        let html_output :=
          if html_output ≠ "" ∧ state_html ≠ "" then html_output ++ "<br>"
          else html_output
        Except.ok (html_output ++ state_html)
      else
        Except.ok html_output
    let interactive_html ←
      if sticky then Except.ok ""
      else do
        let ns ← derefState new_state
        Except.ok (env.get_raw_code
          ns.widget.widget_id ns.widget.customization_args new_params)
    Except.ok (new_params, html_output, interactive_html)

/-- The reader parameters after `old_params['answer'] = answer`. -/
def oldParams (payload : Payload) : Params :=
  paramsInsert payload.params "answer" payload.answer

/-- The rule produced by `exp_services.classify` on the submitted answer,
with the answer already merged into the parameters. -/
def ruleOf (env : Env) (exploration_id : String) (old_state_name : String)
    (payload : Payload) : Rule :=
  env.classify exploration_id old_state_name payload.handler payload.answer
    (oldParams payload)

/-- The JSON values and recorded events that `FeedbackHandler.post`
assembles on a successful run: the reader-response pair from the origin
widget, the triple `out = (new_params, html_output, interactive_html)`
coming out of `_append_content`, the incremented block number, the
destination appended to the history, and the state-hit event (computed on
the history *before* the append) followed by the answer-submitted event. -/
def mkPostResult (env : Env) (exploration_id : String)
    (old_state_name : String) (payload : Payload) (old_state : State)
    (out : Params × String × String) : PostResult :=
  let rule := ruleOf env exploration_id old_state_name payload
  let rr := env.get_reader_response_html old_state.widget.widget_id
    old_state.widget.customization_args (oldParams payload) payload.answer
  { values :=
      { reader_response_html := rr.1
        reader_response_iframe := rr.2
        interactive_html := out.2.2
        exploration_id := exploration_id
        state_name := rule.dest
        oppia_html := out.2.1
        block_number := payload.block_number + 1
        params := out.1
        finished := rule.dest == END_DEST
        state_history := payload.state_history ++ [rule.dest] }
    events :=
      [Event.stateHit exploration_id rule.dest
          (!(payload.state_history.contains rule.dest)),
       Event.answerSubmitted exploration_id old_state_name payload.handler
          rule.rule_repr
          (env.get_stats_log_html old_state.widget.widget_id
            old_state.widget.customization_args (oldParams payload)
            payload.answer)] }

/-- Model of `FeedbackHandler.post`, the lesson state-machine step: resolve the
exploration (an uncaught generic error if absent) and the origin state
(`KeyError` if absent), classify the answer, resolve the destination
(`None` on the end sentinel), compute stickiness, render feedback, run
`_append_content`, and assemble the JSON and the recorded events via
`mkPostResult`. -/
def post (env : Env) (exploration_id : String)
    (old_state_name : String) (payload : Payload) :
    Except HandlerError PostResult := do
  let exploration ← match env.get_exploration_by_id exploration_id with
    | none => Except.error (HandlerError.internal "Entity not found")
    | some e => Except.ok e
  let old_state ← getStateOrKeyError exploration old_state_name
  let rule := ruleOf env exploration_id old_state_name payload
  let new_state_name := rule.dest
  let new_state ← resolveNewState exploration new_state_name
  let sticky ← computeSticky old_state new_state_name new_state
  let finished := new_state_name == END_DEST
  let state_has_changed := old_state_name != new_state_name
  let html_output := get_feedback env exploration_id rule.feedback_string
    (oldParams payload)
  let out ← append_content env exploration_id sticky finished
    (oldParams payload) new_state new_state_name state_has_changed html_output
  Except.ok (mkPostResult env exploration_id old_state_name payload old_state out)

end Oppia.FeedbackHandler

namespace Oppia.EditorPrerequisites

/-- A JSON value as sent in the prerequisites form payload: the tests
exercise booleans and strings for `agreed_to_terms`. -/
inductive JVal where
  | bool (b : Bool)
  | str (s : String)
deriving DecidableEq

/-- The prerequisites form payload: both fields may be absent. -/
structure PrereqPayload where
  agreed_to_terms : Option JVal
  username : Option String
deriving DecidableEq

/-- A 400-class validation error: machine-readable code plus a
human-readable message. -/
structure PrereqError where
  code : Nat
  error : String
deriving DecidableEq

/-- Modelled from the spec: the editor-prerequisites (onboarding) POST
handler, whose implementation (`core/controllers/profile.py`) is not part
of this excerpt — only its test suite is.  Per the spec: fails with a
400-class error whose message contains "you will need to accept" when
`agreed_to_terms` is missing or not a literal true value; fails with
"Empty username supplied" when the username is missing or empty; fails
with "can only have alphanumeric characters" when the username contains a
non-alphanumeric character; otherwise persists the username against the
signed-in identity (returned here as the success value). -/
def post (p : PrereqPayload) : Except PrereqError String :=
  if p.agreed_to_terms ≠ some (JVal.bool true) then
    Except.error
      { code := 400
        error := "In order to edit explorations on this site, you will need to accept the license terms." }
  else
    match p.username with
    | none => Except.error { code := 400, error := "Empty username supplied." }
    | some u =>
      if u = "" then
        Except.error { code := 400, error := "Empty username supplied." }
      else if ¬ (u.toList.all Char.isAlphanum) then
        Except.error
          { code := 400
            error := "Usernames can only have alphanumeric characters." }
      else
        Except.ok u

end Oppia.EditorPrerequisites


namespace Oppia.Fixtures

open Oppia

/-- Widget of fixture state `A` (non-sticky, id `wA`). -/
def widgetA : WidgetInstance :=
  { widget_id := "wA", customization_args := "ca", sticky := false }

/-- Widget of fixture state `B` (sticky flag set but a different id, so
the sticky conjunction still fails against `A`). -/
def widgetB : WidgetInstance :=
  { widget_id := "wB", customization_args := "cb", sticky := true }

/-- Widget sharing `A`'s id with the sticky flag set, so the sticky
conjunction holds against `A`. -/
def widgetBsticky : WidgetInstance :=
  { widget_id := "wA", customization_args := "cb", sticky := true }

/-- Fixture state `A`. -/
def stateA : State := { content := [{ ctype := "text", value := "contentA" }], widget := widgetA }

/-- Fixture state `B`. -/
def stateB : State := { content := [{ ctype := "text", value := "contentB" }], widget := widgetB }

/-- Fixture state `B` with a widget that is sticky relative to `A`. -/
def stateBsticky : State := { content := [{ ctype := "text", value := "contentB" }], widget := widgetBsticky }

/-- Fixture exploration `"0"` with states `A` and `B` (and no state named
by the end sentinel). -/
def exp0 : Exploration :=
  { id := "0", title := "T", default_skin := "skin", init_state_name := "A"
    states := [("A", stateA), ("B", stateB)] }

/-- Fixture exploration `"1"` whose state `B` carries a widget sticky
relative to `A`. -/
def exp1 : Exploration :=
  { id := "1", title := "T1", default_skin := "skin", init_state_name := "A"
    states := [("A", stateA), ("B", stateBsticky)] }

/-- Concrete environment: the store resolves ids `"0"` and `"1"`, every
actor may view, HTML export concatenates content payloads, and the
classifier always routes to state `B` with feedback `"fb"`. -/
def envB : Env :=
  { get_exploration_by_id := fun i =>
      if i == "0" then some exp0 else if i == "1" then some exp1 else none
    can_view := fun _ _ => true
    is_exploration_public := fun _ => true
    get_skin_html := fun s => "skin:" ++ s
    get_init_params := fun _ => []
    update_with_state_params := fun _ _ p => p
    export_content_to_html := fun _ cs _ =>
      String.intercalate "" (cs.map (fun c => c.value))
    get_raw_code := fun w _ _ => "raw:" ++ w
    get_reader_response_html := fun _ _ _ a => ("rr:" ++ a, "iframe")
    get_stats_log_html := fun _ _ _ a => "log:" ++ a
    classify := fun _ _ _ _ _ =>
      { dest := "B", feedback_string := "fb", rule_repr := "r" } }

/-- Environment `envB` with the classifier routing to the end sentinel. -/
def envEnd : Env :=
  { envB with classify := fun _ _ _ _ _ =>
      { dest := END_DEST, feedback_string := "fb", rule_repr := "r" } }

/-- Environment `envB` with the classifier routing back to the origin state `A`. -/
def envSelf : Env :=
  { envB with classify := fun _ _ _ _ _ =>
      { dest := "A", feedback_string := "fb", rule_repr := "r" } }

/-- Environment `envB` with the rights manager denying every view request. -/
def envNoView : Env := { envB with can_view := fun _ _ => false }

/-- Concrete answer-submission payload used by the witnesses. -/
def p0 : FeedbackHandler.Payload :=
  { answer := "ans", handler := "submit", block_number := 3
    params := [("x", "1")], state_history := ["A"] }

/-- The full result of `post envB "0" "A" p0` (destination `B`,
non-sticky), written out for the witnesses. -/
def resB : FeedbackHandler.PostResult :=
  { values :=
      { reader_response_html := "rr:ans"
        reader_response_iframe := "iframe"
        interactive_html := "raw:wB"
        exploration_id := "0"
        state_name := "B"
        oppia_html := "fb<br>contentB"
        block_number := 4
        params := [("x", "1"), ("answer", "ans")]
        finished := false
        state_history := ["A", "B"] }
    events :=
      [Event.stateHit "0" "B" true,
       Event.answerSubmitted "0" "A" "submit" "r" "log:ans"] }

/-- The full result of `post envEnd "0" "A" p0` (destination is the end
sentinel). -/
def resEnd : FeedbackHandler.PostResult :=
  { values :=
      { reader_response_html := "rr:ans"
        reader_response_iframe := "iframe"
        interactive_html := ""
        exploration_id := "0"
        state_name := "END"
        oppia_html := "fb"
        block_number := 4
        params := []
        finished := true
        state_history := ["A", "END"] }
    events :=
      [Event.stateHit "0" "END" true,
       Event.answerSubmitted "0" "A" "submit" "r" "log:ans"] }

/-- The full result of `post envSelf "0" "A" p0` (self-transition back to
`A`). -/
def resSelf : FeedbackHandler.PostResult :=
  { values :=
      { reader_response_html := "rr:ans"
        reader_response_iframe := "iframe"
        interactive_html := "raw:wA"
        exploration_id := "0"
        state_name := "A"
        oppia_html := "fb"
        block_number := 4
        params := [("x", "1"), ("answer", "ans")]
        finished := false
        state_history := ["A", "A"] }
    events :=
      [Event.stateHit "0" "A" false,
       Event.answerSubmitted "0" "A" "submit" "r" "log:ans"] }

/-- The full result of `post envB "1" "A" p0` (destination `B` of `exp1`,
sticky relative to `A`, so the widget is not re-rendered). -/
def resBsticky : FeedbackHandler.PostResult :=
  { values :=
      { reader_response_html := "rr:ans"
        reader_response_iframe := "iframe"
        interactive_html := ""
        exploration_id := "1"
        state_name := "B"
        oppia_html := "fb<br>contentB"
        block_number := 4
        params := [("x", "1"), ("answer", "ans")]
        finished := false
        state_history := ["A", "B"] }
    events :=
      [Event.stateHit "1" "B" true,
       Event.answerSubmitted "1" "A" "submit" "r" "log:ans"] }

/-- Two public explorations, for the random-redirect witness. -/
def exps2 : List Exploration := [exp0, exp1]

end Oppia.Fixtures

namespace Oppia

/-- Reduction of an `Except` bind on a success value. -/
theorem ok_bind {α β : Type} (a : α) (f : α → Except HandlerError β) :
    (Except.ok a >>= f) = f a := rfl

/-- An `Except` bind on an error never yields a success value. -/
theorem error_bind_ne_ok {α β : Type} (msg : HandlerError)
    (f : α → Except HandlerError β) (r : β) :
    ((Except.error msg : Except HandlerError α) >>= f) ≠ Except.ok r := by
  simp [Bind.bind, Except.bind]

end Oppia


namespace Oppia

open Oppia.Fixtures

/-- Inversion of a successful `FeedbackHandler.post` run: every lookup in
the chain succeeded, and the result is assembled by `mkPostResult` from
the origin state and the `_append_content` output. -/
theorem post_ok_inv (env : Env) (exploration_id : String)
    (old_state_name : String) (payload : FeedbackHandler.Payload)
    (r : FeedbackHandler.PostResult)
    (hok : FeedbackHandler.post env exploration_id old_state_name payload =
      Except.ok r) :
    ∃ e old_state new_state sticky out,
      env.get_exploration_by_id exploration_id = some e ∧
      getStateOrKeyError e old_state_name = Except.ok old_state ∧
      FeedbackHandler.resolveNewState e
        (FeedbackHandler.ruleOf env exploration_id old_state_name payload).dest =
        Except.ok new_state ∧
      FeedbackHandler.computeSticky old_state
        (FeedbackHandler.ruleOf env exploration_id old_state_name payload).dest
        new_state = Except.ok sticky ∧
      FeedbackHandler.append_content env exploration_id sticky
        ((FeedbackHandler.ruleOf env exploration_id old_state_name payload).dest ==
          END_DEST)
        (FeedbackHandler.oldParams payload) new_state
        (FeedbackHandler.ruleOf env exploration_id old_state_name payload).dest
        (old_state_name !=
          (FeedbackHandler.ruleOf env exploration_id old_state_name payload).dest)
        (FeedbackHandler.get_feedback env exploration_id
          (FeedbackHandler.ruleOf env exploration_id old_state_name
            payload).feedback_string
          (FeedbackHandler.oldParams payload)) = Except.ok out ∧
      r = FeedbackHandler.mkPostResult env exploration_id old_state_name payload
        old_state out := by
  rw [FeedbackHandler.post] at hok
  rcases hres : env.get_exploration_by_id exploration_id with - | e <;>
    simp only [hres] at hok
  · exact absurd hok (error_bind_ne_ok _ _ _)
  rw [ok_bind] at hok
  rcases hold : getStateOrKeyError e old_state_name with msg | old_state <;>
    rw [hold] at hok
  · exact absurd hok (error_bind_ne_ok _ _ _)
  rw [ok_bind] at hok
  rcases hns : FeedbackHandler.resolveNewState e
      (FeedbackHandler.ruleOf env exploration_id old_state_name payload).dest
    with msg | new_state <;> rw [hns] at hok
  · exact absurd hok (error_bind_ne_ok _ _ _)
  rw [ok_bind] at hok
  rcases hst : FeedbackHandler.computeSticky old_state
      (FeedbackHandler.ruleOf env exploration_id old_state_name payload).dest
      new_state
    with msg | sticky <;> rw [hst] at hok
  · exact absurd hok (error_bind_ne_ok _ _ _)
  rw [ok_bind] at hok
  rcases hap : FeedbackHandler.append_content env exploration_id sticky
      ((FeedbackHandler.ruleOf env exploration_id old_state_name payload).dest ==
        END_DEST)
      (FeedbackHandler.oldParams payload) new_state
      (FeedbackHandler.ruleOf env exploration_id old_state_name payload).dest
      (old_state_name !=
        (FeedbackHandler.ruleOf env exploration_id old_state_name payload).dest)
      (FeedbackHandler.get_feedback env exploration_id
        (FeedbackHandler.ruleOf env exploration_id old_state_name
          payload).feedback_string
        (FeedbackHandler.oldParams payload))
    with msg | out <;> rw [hap] at hok
  · exact absurd hok (error_bind_ne_ok _ _ _)
  rw [ok_bind] at hok
  cases hok
  exact ⟨e, old_state, new_state, sticky, out, rfl, hold, hns, hst, hap, rfl⟩

/-- Evaluation: `post` at the fixture environment `envB` succeeds; stated through
`Except.isOk` so that the kernel can evaluate it. -/
theorem post_envB_isOk : (FeedbackHandler.post envB "0" "A" p0).isOk = true := by
  decide

/-- C7: for every answer submission with client-sent block number `n`, the
`block_number` field of the returned JSON equals exactly `n + 1`. -/
theorem post_block_number_increments (env : Env) (exploration_id : String)
    (old_state_name : String) (payload : FeedbackHandler.Payload)
    (r : FeedbackHandler.PostResult)
    (hok : FeedbackHandler.post env exploration_id old_state_name payload =
      Except.ok r) :
    r.values.block_number = payload.block_number + 1 := by
  obtain ⟨e, old_state, new_state, sticky, out, -, -, -, -, -, hr⟩ :=
    post_ok_inv env exploration_id old_state_name payload r hok
  subst hr
  rfl

/-- Witness for C7 at a concrete run: submitting with block number 3
returns block number 4. -/
theorem post_block_number_increments_witness :
    (FeedbackHandler.post envB "0" "A" p0).map
        (fun r => r.values.block_number) = Except.ok (3 + 1) := by
  rcases hok : FeedbackHandler.post envB "0" "A" p0 with msg | r
  · have hsome := post_envB_isOk
    rw [hok] at hsome
    exact absurd hsome (by simp [Except.isOk, Except.toBool])
  · have h := post_block_number_increments envB "0" "A" p0 r hok
    have hmap : Except.map
        (fun r : FeedbackHandler.PostResult => r.values.block_number)
        (Except.ok r : Except HandlerError FeedbackHandler.PostResult) =
        Except.ok r.values.block_number := rfl
    rw [hmap, h]
    rfl

end Oppia

namespace Oppia

open Oppia.Fixtures

/-- Lemma: `resolveNewState` at the end sentinel yields no destination state. -/
theorem resolveNewState_end (e : Exploration)
    (d : String) (hd : d = END_DEST) :
    FeedbackHandler.resolveNewState e d = Except.ok none := by
  rw [FeedbackHandler.resolveNewState, hd]
  simp

/-- Lemma: `resolveNewState` away from the end sentinel returns the looked-up
destination state. -/
theorem resolveNewState_of_lookup (e : Exploration) (d : String)
    (ns : State) (hne : d ≠ END_DEST) (h : lookupState e d = some ns) :
    FeedbackHandler.resolveNewState e d = Except.ok (some ns) := by
  rw [FeedbackHandler.resolveNewState]
  simp only [beq_iff_eq, hne, if_neg, getStateOrKeyError, h]
  rfl

/-- Lemma: `computeSticky` at the end sentinel is false without touching the
destination state. -/
theorem computeSticky_end (ost : State) (d : String)
    (nso : Option State) (hd : d = END_DEST) :
    FeedbackHandler.computeSticky ost d nso = Except.ok false := by
  rw [FeedbackHandler.computeSticky, hd]
  simp

/-- Lemma: `computeSticky` away from the end sentinel reads the destination
widget's sticky flag and compares widget ids. -/
theorem computeSticky_some (ost : State) (d : String) (ns : State)
    (hne : d ≠ END_DEST) :
    FeedbackHandler.computeSticky ost d (some ns) =
      Except.ok (ns.widget.sticky &&
        (ns.widget.widget_id == ost.widget.widget_id)) := by
  rw [FeedbackHandler.computeSticky]
  simp only [beq_iff_eq, hne, if_neg, derefState]
  rfl

/-- Lemma: `_append_content` on a finished session: empty parameters, the
feedback HTML unchanged, no interactive widget. -/
theorem append_content_finished (env : Env) (exploration_id : String)
    (sticky : Bool) (old_params : Params) (nso : Option State) (d : String)
    (chg : Bool) (html : String) :
    FeedbackHandler.append_content env exploration_id sticky true old_params
      nso d chg html = Except.ok ([], html, "") := rfl

/-- Lemma: `_append_content` on an unfinished session with a present destination
state, written as a single equation. -/
theorem append_content_not_finished (env : Env) (exploration_id : String)
    (sticky : Bool) (old_params : Params) (ns : State) (d : String)
    (chg : Bool) (html : String) :
    FeedbackHandler.append_content env exploration_id sticky false old_params
      (some ns) d chg html =
      Except.ok
        (env.update_with_state_params exploration_id d old_params,
         (if chg then
            (if html ≠ "" ∧
                env.export_content_to_html exploration_id ns.content
                  (env.update_with_state_params exploration_id d old_params) ≠ ""
             then html ++ "<br>" else html) ++
            env.export_content_to_html exploration_id ns.content
              (env.update_with_state_params exploration_id d old_params)
          else html),
         (if sticky then ""
          else env.get_raw_code ns.widget.widget_id
            ns.widget.customization_args
            (env.update_with_state_params exploration_id d old_params))) := by
  rw [FeedbackHandler.append_content]
  cases chg <;> cases sticky <;> rfl

/-- C2: the returned state history is the client-sent history with the
classified destination appended as the new last element, in order and
without deduplication. -/
theorem post_state_history_appends (env : Env) (exploration_id : String)
    (old_state_name : String) (payload : FeedbackHandler.Payload)
    (r : FeedbackHandler.PostResult)
    (hok : FeedbackHandler.post env exploration_id old_state_name payload =
      Except.ok r) :
    r.values.state_name =
      (FeedbackHandler.ruleOf env exploration_id old_state_name payload).dest ∧
    r.values.state_history =
      payload.state_history ++ [r.values.state_name] := by
  obtain ⟨e, ost, nso, s, out, -, -, -, -, -, hr⟩ :=
    post_ok_inv env exploration_id old_state_name payload r hok
  subst hr
  exact ⟨rfl, rfl⟩

/-- C6: the first recorded event of a submission is the state hit for the
destination, with `is_first_visit` true exactly when the destination does
not occur in the client-sent history (evaluated before the append); in
particular a self-transition whose origin is already in the history
records `is_first_visit = false`. -/
theorem post_state_hit_first_visit (env : Env) (exploration_id : String)
    (old_state_name : String) (payload : FeedbackHandler.Payload)
    (r : FeedbackHandler.PostResult)
    (hok : FeedbackHandler.post env exploration_id old_state_name payload =
      Except.ok r) :
    r.events.head? = some (Event.stateHit exploration_id r.values.state_name
      (!(payload.state_history.contains r.values.state_name))) ∧
    (payload.state_history.contains old_state_name = true →
      r.values.state_name = old_state_name →
      (!(payload.state_history.contains r.values.state_name)) = false) := by
  obtain ⟨e, ost, nso, s, out, -, -, -, -, -, hr⟩ :=
    post_ok_inv env exploration_id old_state_name payload r hok
  subst hr
  refine ⟨rfl, fun h1 h2 => ?_⟩
  rw [h2, h1]
  rfl

end Oppia

namespace Oppia

open Oppia.Fixtures

/-- Inverting a successful `resolveNewState` away from the end sentinel:
the destination state was found by lookup. -/
theorem resolveNewState_ok_inv (e : Exploration) (d : String)
    (nso : Option State)
    (hne : d ≠ END_DEST)
    (h : FeedbackHandler.resolveNewState e d = Except.ok nso) :
    ∃ ns, nso = some ns ∧ lookupState e d = some ns := by
  rw [FeedbackHandler.resolveNewState] at h
  rw [show (d == END_DEST) = false from beq_eq_false_iff_ne.mpr hne] at h
  simp only [Bool.false_eq_true, if_false] at h
  rcases hl : lookupState e d with - | ns <;>
    simp only [getStateOrKeyError, hl] at h
  · exact absurd h (error_bind_ne_ok _ _ _)
  · rw [ok_bind] at h
    exact ⟨ns, (Except.ok.inj h).symm, rfl⟩

/-- The `interactive_html` field of an assembled result is the third
component of the `_append_content` output. -/
theorem mkPostResult_interactive_html (env : Env) (exploration_id : String)
    (old_state_name : String) (payload : FeedbackHandler.Payload)
    (old_state : State) (out : Params × String × String) :
    (FeedbackHandler.mkPostResult env exploration_id old_state_name payload
      old_state out).values.interactive_html = out.2.2 := rfl

/-- The `oppia_html` field of an assembled result is the second component
of the `_append_content` output. -/
theorem mkPostResult_oppia_html (env : Env) (exploration_id : String)
    (old_state_name : String) (payload : FeedbackHandler.Payload)
    (old_state : State) (out : Params × String × String) :
    (FeedbackHandler.mkPostResult env exploration_id old_state_name payload
      old_state out).values.oppia_html = out.2.1 := rfl

/-- C3: the sticky flag is true exactly when the destination is not the
end sentinel, the destination widget is flagged sticky, and the
destination widget id equals the origin widget id; and a true sticky flag
forces the returned `interactive_html` to be empty. -/
theorem post_sticky_iff (env : Env) (exploration_id : String)
    (old_state_name : String) (payload : FeedbackHandler.Payload)
    (r : FeedbackHandler.PostResult)
    (e : Exploration) (old_state : State) (nso : Option State) (s : Bool)
    (hres : env.get_exploration_by_id exploration_id = some e)
    (hold : getStateOrKeyError e old_state_name = Except.ok old_state)
    (hns : FeedbackHandler.resolveNewState e
      (FeedbackHandler.ruleOf env exploration_id old_state_name payload).dest =
      Except.ok nso)
    (hst : FeedbackHandler.computeSticky old_state
      (FeedbackHandler.ruleOf env exploration_id old_state_name payload).dest
      nso = Except.ok s)
    (hok : FeedbackHandler.post env exploration_id old_state_name payload =
      Except.ok r) :
    (s = true ↔
      ((FeedbackHandler.ruleOf env exploration_id old_state_name
          payload).dest ≠ END_DEST ∧
        ∃ ns, nso = some ns ∧ ns.widget.sticky = true ∧
          ns.widget.widget_id = old_state.widget.widget_id)) ∧
    (s = true → r.values.interactive_html = "") := by
  obtain ⟨e', ost', nso', s', out, hres', hold', hns', hst', hap, hr⟩ :=
    post_ok_inv env exploration_id old_state_name payload r hok
  subst hr
  have he : e = e' := Option.some.inj (hres.symm.trans hres')
  subst he
  have host : old_state = ost' := Except.ok.inj (hold.symm.trans hold')
  subst host
  have hnso : nso = nso' := Except.ok.inj (hns.symm.trans hns')
  subst hnso
  have hs : s = s' := Except.ok.inj (hst.symm.trans hst')
  subst hs
  by_cases hd : (FeedbackHandler.ruleOf env exploration_id old_state_name
      payload).dest = END_DEST
  · have hfalse : s = false :=
      Except.ok.inj (hst.symm.trans (computeSticky_end old_state _ nso hd))
    subst hfalse
    constructor
    · simp [hd]
    · intro h
      exact absurd h (by simp)
  · obtain ⟨ns, hnso, hl⟩ := resolveNewState_ok_inv e _ nso hd hns
    subst hnso
    have hsval : s = (ns.widget.sticky &&
        (ns.widget.widget_id == old_state.widget.widget_id)) :=
      Except.ok.inj (hst.symm.trans (computeSticky_some old_state _ ns hd))
    constructor
    · subst hsval
      simp only [Bool.and_eq_true, beq_iff_eq]
      constructor
      · rintro ⟨h1, h2⟩
        exact ⟨hd, ns, rfl, h1, h2⟩
      · rintro ⟨-, ns', hns', h1, h2⟩
        cases Option.some.inj hns'
        exact ⟨h1, h2⟩
    · intro htrue
      rw [show ((FeedbackHandler.ruleOf env exploration_id old_state_name
          payload).dest == END_DEST) = false from beq_eq_false_iff_ne.mpr hd]
        at hap
      rw [append_content_not_finished] at hap
      have hout := (Except.ok.inj hap).symm
      subst hout
      rw [mkPostResult_interactive_html, htrue]
      rfl

/-- C4: a submission classified to the end sentinel returns
`finished = true`, an empty `interactive_html`, empty parameters, and
`oppia_html` equal to the rendered feedback HTML alone. -/
theorem post_finished_outputs (env : Env) (exploration_id : String)
    (old_state_name : String) (payload : FeedbackHandler.Payload)
    (r : FeedbackHandler.PostResult)
    (hfin : (FeedbackHandler.ruleOf env exploration_id old_state_name
      payload).dest = END_DEST)
    (hok : FeedbackHandler.post env exploration_id old_state_name payload =
      Except.ok r) :
    r.values.finished = true ∧
    r.values.interactive_html = "" ∧
    r.values.params = [] ∧
    r.values.oppia_html = FeedbackHandler.get_feedback env exploration_id
      (FeedbackHandler.ruleOf env exploration_id old_state_name
        payload).feedback_string
      (FeedbackHandler.oldParams payload) := by
  obtain ⟨e, ost, nso, s, out, hres, hold, hns, hst, hap, hr⟩ :=
    post_ok_inv env exploration_id old_state_name payload r hok
  subst hr
  have hb : ((FeedbackHandler.ruleOf env exploration_id old_state_name
      payload).dest == END_DEST) = true := beq_iff_eq.mpr hfin
  rw [hb] at hap
  rw [append_content_finished] at hap
  have hout := (Except.ok.inj hap).symm
  subst hout
  exact ⟨hb, rfl, rfl, rfl⟩

/-- C5: on an unfinished transition the returned `oppia_html` is the
feedback HTML alone when the destination equals the origin, and the
feedback HTML followed by the destination state's rendered content (with
a `<br>` separator exactly when both are non-empty) when it differs. -/
theorem post_unfinished_oppia_html (env : Env) (exploration_id : String)
    (old_state_name : String) (payload : FeedbackHandler.Payload)
    (r : FeedbackHandler.PostResult) (e : Exploration) (ns : State)
    (hres : env.get_exploration_by_id exploration_id = some e)
    (hne : (FeedbackHandler.ruleOf env exploration_id old_state_name
      payload).dest ≠ END_DEST)
    (hl : lookupState e (FeedbackHandler.ruleOf env exploration_id
      old_state_name payload).dest = some ns)
    (hok : FeedbackHandler.post env exploration_id old_state_name payload =
      Except.ok r) :
    (old_state_name = (FeedbackHandler.ruleOf env exploration_id
        old_state_name payload).dest →
      r.values.oppia_html = FeedbackHandler.get_feedback env exploration_id
        (FeedbackHandler.ruleOf env exploration_id old_state_name
          payload).feedback_string
        (FeedbackHandler.oldParams payload)) ∧
    (old_state_name ≠ (FeedbackHandler.ruleOf env exploration_id
        old_state_name payload).dest →
      r.values.oppia_html =
        (if FeedbackHandler.get_feedback env exploration_id
              (FeedbackHandler.ruleOf env exploration_id old_state_name
                payload).feedback_string
              (FeedbackHandler.oldParams payload) ≠ "" ∧
            env.export_content_to_html exploration_id ns.content
              (env.update_with_state_params exploration_id
                (FeedbackHandler.ruleOf env exploration_id old_state_name
                  payload).dest
                (FeedbackHandler.oldParams payload)) ≠ ""
         then FeedbackHandler.get_feedback env exploration_id
            (FeedbackHandler.ruleOf env exploration_id old_state_name
              payload).feedback_string
            (FeedbackHandler.oldParams payload) ++ "<br>"
         else FeedbackHandler.get_feedback env exploration_id
            (FeedbackHandler.ruleOf env exploration_id old_state_name
              payload).feedback_string
            (FeedbackHandler.oldParams payload)) ++
        env.export_content_to_html exploration_id ns.content
          (env.update_with_state_params exploration_id
            (FeedbackHandler.ruleOf env exploration_id old_state_name
              payload).dest
            (FeedbackHandler.oldParams payload))) := by
  obtain ⟨e', ost, nso, s, out, hres', hold, hns, hst, hap, hr⟩ :=
    post_ok_inv env exploration_id old_state_name payload r hok
  subst hr
  have he : e = e' := Option.some.inj (hres.symm.trans hres')
  subst he
  obtain ⟨ns', hnso, hl'⟩ := resolveNewState_ok_inv e _ nso hne hns
  subst hnso
  have hns2 : ns = ns' := by
    rw [hl] at hl'
    exact Option.some.inj hl'
  subst hns2
  rw [show ((FeedbackHandler.ruleOf env exploration_id old_state_name
      payload).dest == END_DEST) = false from beq_eq_false_iff_ne.mpr hne]
    at hap
  rw [append_content_not_finished] at hap
  have hout := (Except.ok.inj hap).symm
  subst hout
  rw [mkPostResult_oppia_html]
  constructor
  · intro hsame
    rw [show (old_state_name !=
        (FeedbackHandler.ruleOf env exploration_id old_state_name
          payload).dest) = false from bne_eq_false_iff_eq.mpr hsame]
    simp
  · intro hdiff
    rw [show (old_state_name !=
        (FeedbackHandler.ruleOf env exploration_id old_state_name
          payload).dest) = true from bne_iff_ne.mpr hdiff]
    simp

end Oppia

namespace Oppia

/-- C10: when the classified destination is the end sentinel, `post`
completes successfully without ever dereferencing a destination `State`:
the destination resolves to `None` (whose dereference would be an
`AttributeError`), the sticky conjunction short-circuits to false, and
`_append_content` returns the finished branch — even if the exploration
has no state named by the sentinel. -/
theorem post_end_sentinel_safe (env : Env) (exploration_id : String)
    (old_state_name : String) (payload : FeedbackHandler.Payload)
    (e : Exploration) (old_state : State)
    (hres : env.get_exploration_by_id exploration_id = some e)
    (hold : lookupState e old_state_name = some old_state)
    (hend : (FeedbackHandler.ruleOf env exploration_id old_state_name
      payload).dest = END_DEST) :
    FeedbackHandler.post env exploration_id old_state_name payload =
      Except.ok (FeedbackHandler.mkPostResult env exploration_id
        old_state_name payload old_state
        ([], FeedbackHandler.get_feedback env exploration_id
          (FeedbackHandler.ruleOf env exploration_id old_state_name
            payload).feedback_string
          (FeedbackHandler.oldParams payload), "")) := by
  have hbeq : ((FeedbackHandler.ruleOf env exploration_id old_state_name
      payload).dest == END_DEST) = true := beq_iff_eq.mpr hend
  simp only [FeedbackHandler.post, hres, ok_bind, getStateOrKeyError, hold,
    resolveNewState_end e
      (FeedbackHandler.ruleOf env exploration_id old_state_name payload).dest
      hend,
    computeSticky_end old_state
      (FeedbackHandler.ruleOf env exploration_id old_state_name payload).dest
      none hend,
    hbeq, append_content_finished]

/-- C1 (amended): the exploration page fails with NotFound exactly when
the id does not resolve or the actor lacks view permission, while the
init handler fails with NotFound when the id does not resolve but
performs no view-permission check: whenever the id resolves (and the
initial state exists) it succeeds for every actor. -/
theorem exploration_access_control (env : Env) (user_id : Option String)
    (iframed : Bool) (exploration_id : String) :
    (ExplorationPage.get env user_id iframed exploration_id =
        Except.error HandlerError.notFound ↔
      (env.get_exploration_by_id exploration_id = none ∨
        env.can_view user_id exploration_id = false)) ∧
    (env.get_exploration_by_id exploration_id = none →
      ExplorationHandler.get env exploration_id =
        Except.error HandlerError.notFound) ∧
    (∀ e, env.get_exploration_by_id exploration_id = some e →
      ∀ st, lookupState e e.init_state_name = some st →
      ∃ v, ExplorationHandler.get env exploration_id = Except.ok v) := by
  refine ⟨?_, ?_, ?_⟩
  · rw [ExplorationPage.get]
    rcases hres : env.get_exploration_by_id exploration_id with - | e
    · simp
    · by_cases hv : env.can_view user_id exploration_id = true
      · simp [hv]
      · simp [hv, Bool.not_eq_true] at hv ⊢
  · intro hres
    rw [ExplorationHandler.get]
    simp only [hres]
  · intro e hres st hst
    rw [ExplorationHandler.get]
    simp only [hres, getStateOrKeyError, hst, ok_bind]
    exact ⟨_, rfl⟩

/-- An element picked by `get_random_choice` from a non-empty list belongs
to the list (the random draw is reduced modulo the list length). -/
theorem get_random_choice_mem (l : List Exploration) (r : Nat)
    (d : Exploration) (h : l ≠ []) :
    RandomExplorationPage.get_random_choice l r d ∈ l := by
  rw [RandomExplorationPage.get_random_choice]
  have hlen : 0 < l.length := List.length_pos.mpr h
  have hm : r % l.length < l.length := Nat.mod_lt _ hlen
  rw [List.getD_eq_getElem l d hm]
  exact List.getElem_mem hm

/-- C9: with fewer than two public explorations the random-exploration
redirect deletes and reloads demo exploration "1" and redirects to its
reader page; otherwise it performs no demo maintenance and redirects to
the reader page of the exploration drawn by `get_random_choice` from the
list without its first element. -/
theorem random_exploration_redirect (explorations : List Exploration)
    (r : Nat) (iframed : Bool) :
    (explorations.length ≤ 1 →
      RandomExplorationPage.get explorations r iframed =
        { events := [Event.deleteDemo "1", Event.loadDemo "1"]
          dest_url :=
            "/learn/1" ++ (if iframed then "?iframed=true" else "") }) ∧
    (1 < explorations.length →
      (RandomExplorationPage.get explorations r iframed).events = [] ∧
      ∃ e, e ∈ explorations.drop 1 ∧
        e = RandomExplorationPage.get_random_choice (explorations.drop 1) r
          RandomExplorationPage.dummyExploration ∧
        (RandomExplorationPage.get explorations r iframed).dest_url =
          "/learn/" ++ e.id ++
            (if iframed then "?iframed=true" else "")) := by
  constructor
  · intro hle
    rw [RandomExplorationPage.get]
    simp [hle]
  · intro hgt
    have hnle : ¬ explorations.length ≤ 1 := by omega
    have hne : explorations.drop 1 ≠ [] := by
      intro hnil
      have hlen := congrArg List.length hnil
      simp only [List.length_drop, List.length_nil] at hlen
      omega
    refine ⟨?_, _, get_random_choice_mem _ r _ hne, rfl, ?_⟩
    · rw [RandomExplorationPage.get]
      simp [hnle]
    · rw [RandomExplorationPage.get]
      simp [hnle]

end Oppia

namespace Oppia

open Oppia.EditorPrerequisites

/-- C8: the prerequisites handler rejects a missing or non-true
`agreed_to_terms` with a 400 error containing "you will need to accept",
rejects a missing or empty username with "Empty username supplied",
rejects a username with a non-alphanumeric character with "can only have
alphanumeric characters", and otherwise succeeds, persisting the
username. -/
theorem editor_prerequisites_validation (p : PrereqPayload) :
    (p.agreed_to_terms ≠ some (JVal.bool true) →
      ∃ err, EditorPrerequisites.post p = Except.error err ∧
        err.code = 400 ∧
        ∃ s t, err.error = s ++ "you will need to accept" ++ t) ∧
    (p.agreed_to_terms = some (JVal.bool true) →
      (p.username = none ∨ p.username = some "") →
      ∃ err, EditorPrerequisites.post p = Except.error err ∧
        err.code = 400 ∧
        ∃ s t, err.error = s ++ "Empty username supplied" ++ t) ∧
    (∀ u, p.agreed_to_terms = some (JVal.bool true) → p.username = some u →
      u ≠ "" → (u.toList.all Char.isAlphanum) = false →
      ∃ err, EditorPrerequisites.post p = Except.error err ∧
        err.code = 400 ∧
        ∃ s t, err.error = s ++ "can only have alphanumeric characters" ++ t) ∧
    (∀ u, p.agreed_to_terms = some (JVal.bool true) → p.username = some u →
      u ≠ "" → (u.toList.all Char.isAlphanum) = true →
      EditorPrerequisites.post p = Except.ok u) := by
  refine ⟨?_, ?_, ?_, ?_⟩
  · intro hterms
    rw [EditorPrerequisites.post]
    rw [if_pos hterms]
    exact ⟨_, rfl, rfl,
      "In order to edit explorations on this site, ", " the license terms.",
      by decide⟩
  · intro hterms huser
    rw [EditorPrerequisites.post]
    rw [if_neg (by simp [hterms])]
    rcases huser with huser | huser <;> rw [huser]
    · exact ⟨_, rfl, rfl, "", ".", by decide⟩
    · exact ⟨_, rfl, rfl, "", ".", by decide⟩
  · intro u hterms huser hne halpha
    rw [EditorPrerequisites.post]
    rw [if_neg (by simp [hterms])]
    simp only [huser]
    rw [if_neg hne]
    rw [if_pos (show ¬ (u.toList.all Char.isAlphanum = true) from by
      rw [halpha]; decide)]
    exact ⟨_, rfl, rfl, "Usernames ", ".", by decide⟩
  · intro u hterms huser hne halpha
    rw [EditorPrerequisites.post]
    rw [if_neg (by simp [hterms])]
    simp only [huser]
    rw [if_neg hne]
    rw [if_neg (show ¬ ¬ (u.toList.all Char.isAlphanum = true) from by
      rw [halpha]; decide)]

end Oppia

namespace Oppia

open Oppia.Fixtures
open Oppia.EditorPrerequisites

/-- Witness for C2 at a concrete run: the returned history is the sent
history `["A"]` with the destination appended. -/
theorem post_state_history_appends_witness :
    FeedbackHandler.post envB "0" "A" p0 = Except.ok resB ∧
    resB.values.state_history = p0.state_history ++ [resB.values.state_name] :=
  ⟨by decide, (post_state_history_appends envB "0" "A" p0 resB (by decide)).2⟩

/-- Witness for C3 at a concrete run on `exp1`, where the destination
widget is sticky and shares the origin's widget id: the flag computes to
true and the returned `interactive_html` is empty. -/
theorem post_sticky_iff_witness :
    FeedbackHandler.post envB "1" "A" p0 = Except.ok resBsticky ∧
    ((true = true) ↔
      ((FeedbackHandler.ruleOf envB "1" "A" p0).dest ≠ END_DEST ∧
        ∃ ns, (some stateBsticky : Option State) = some ns ∧
          ns.widget.sticky = true ∧
          ns.widget.widget_id = stateA.widget.widget_id)) ∧
    ((true = true) → resBsticky.values.interactive_html = "") :=
  ⟨by decide,
   (post_sticky_iff envB "1" "A" p0 resBsticky exp1 stateA
      (some stateBsticky) true (by decide) (by decide) (by decide)
      (by decide) (by decide)).1,
   (post_sticky_iff envB "1" "A" p0 resBsticky exp1 stateA
      (some stateBsticky) true (by decide) (by decide) (by decide)
      (by decide) (by decide)).2⟩

/-- Witness for C4 at a concrete run classified to the end sentinel. -/
theorem post_finished_outputs_witness :
    FeedbackHandler.post envEnd "0" "A" p0 = Except.ok resEnd ∧
    (resEnd.values.finished = true ∧
      resEnd.values.interactive_html = "" ∧
      resEnd.values.params = [] ∧
      resEnd.values.oppia_html = FeedbackHandler.get_feedback envEnd "0"
        (FeedbackHandler.ruleOf envEnd "0" "A" p0).feedback_string
        (FeedbackHandler.oldParams p0)) :=
  ⟨by decide, post_finished_outputs envEnd "0" "A" p0 resEnd (by decide)
    (by decide)⟩

/-- Witness for C5 at a concrete changed-state run: the returned
`oppia_html` is the feedback, a separator, and the destination content. -/
theorem post_unfinished_oppia_html_witness :
    ("A" : String) ≠ (FeedbackHandler.ruleOf envB "0" "A" p0).dest ∧
    FeedbackHandler.post envB "0" "A" p0 = Except.ok resB ∧
    resB.values.oppia_html = "fb<br>contentB" := by
  refine ⟨by decide, by decide, ?_⟩
  have h := (post_unfinished_oppia_html envB "0" "A" p0 resB exp0 stateB
    (by decide) (by decide) (by decide) (by decide)).2 (by decide)
  rw [h]
  decide

/-- Witness for C6 at a concrete self-transition whose origin is already
in the history: the hit is recorded with `is_first_visit = false`. -/
theorem post_state_hit_first_visit_witness :
    FeedbackHandler.post envSelf "0" "A" p0 = Except.ok resSelf ∧
    resSelf.events.head? = some (Event.stateHit "0" resSelf.values.state_name
      (!(p0.state_history.contains resSelf.values.state_name))) ∧
    (!(p0.state_history.contains resSelf.values.state_name)) = false :=
  ⟨by decide,
   (post_state_hit_first_visit envSelf "0" "A" p0 resSelf (by decide)).1,
   (post_state_hit_first_visit envSelf "0" "A" p0 resSelf (by decide)).2
     (by decide) (by decide)⟩

/-- Witness for C10 at a concrete end-sentinel run against an exploration
that has no state named by the sentinel: the handler still succeeds. -/
theorem post_end_sentinel_safe_witness :
    envEnd.get_exploration_by_id "0" = some exp0 ∧
    lookupState exp0 "A" = some stateA ∧
    (FeedbackHandler.ruleOf envEnd "0" "A" p0).dest = END_DEST ∧
    FeedbackHandler.post envEnd "0" "A" p0 =
      Except.ok (FeedbackHandler.mkPostResult envEnd "0" "A" p0 stateA
        ([], FeedbackHandler.get_feedback envEnd "0"
          (FeedbackHandler.ruleOf envEnd "0" "A" p0).feedback_string
          (FeedbackHandler.oldParams p0), "")) :=
  ⟨by decide, by decide, by decide,
   post_end_sentinel_safe envEnd "0" "A" p0 exp0 stateA (by decide)
     (by decide) (by decide)⟩

/-- C1 counterexample: the store resolves id `"0"` but the rights manager
denies every view request; the exploration page correctly fails with
NotFound, yet the init handler succeeds — it performs no view-permission
check, falsifying the claim for `GET /learnhandler/init`. -/
theorem init_handler_no_view_check_counterexample :
    envNoView.can_view none "0" = false ∧
    envNoView.get_exploration_by_id "0" = some exp0 ∧
    ExplorationPage.get envNoView none false "0" =
      Except.error HandlerError.notFound ∧
    (ExplorationHandler.get envNoView "0").isOk = true := by
  exact ⟨rfl, by decide, by decide, by decide⟩

/-- Witness for the amended C1 at a concrete unresolvable id: the init
handler fails with NotFound. -/
theorem exploration_access_control_witness :
    envNoView.get_exploration_by_id "404" = none ∧
    ExplorationHandler.get envNoView "404" =
      Except.error HandlerError.notFound :=
  ⟨by decide, (exploration_access_control envNoView none false "404").2.1
    (by decide)⟩

/-- Witness for C9 at a concrete two-exploration list with draw 5: the
redirect goes to the element picked from the list without its head. -/
theorem random_exploration_redirect_witness :
    1 < exps2.length ∧
    ((RandomExplorationPage.get exps2 5 false).events = [] ∧
      ∃ e, e ∈ exps2.drop 1 ∧
        e = RandomExplorationPage.get_random_choice (exps2.drop 1) 5
          RandomExplorationPage.dummyExploration ∧
        (RandomExplorationPage.get exps2 5 false).dest_url =
          "/learn/" ++ e.id ++ (if false then "?iframed=true" else "")) :=
  ⟨by decide, (random_exploration_redirect exps2 5 false).2 (by decide)⟩

/-- Witness for C8: a non-boolean truthy string for `agreed_to_terms`
yields the 400 terms error, and a valid payload succeeds. -/
theorem editor_prerequisites_validation_witness :
    (∃ err, EditorPrerequisites.post
        { agreed_to_terms := some (JVal.str "Hasta la vista!")
          username := none } = Except.error err ∧
      err.code = 400 ∧
      ∃ s t, err.error = s ++ "you will need to accept" ++ t) ∧
    EditorPrerequisites.post
      { agreed_to_terms := some (JVal.bool true)
        username := some "abcde" } = Except.ok "abcde" :=
  ⟨(editor_prerequisites_validation _).1 (by decide),
   (editor_prerequisites_validation _).2.2.2 "abcde" rfl rfl (by decide)
     (by decide)⟩

end Oppia
